import Mathlib

/-!
Verification of the Device State Synchronization Core of the
homebridge-wattbox plugin against its natural-language specification.

The definitions below are a shallow embedding of `src/wattbox.ts` and
`src/platformAccessory.ts` (current revision; the superseded historical
revisions kept alongside in the repository are embedded separately where a
claim refers to them).  JavaScript machine-level primitives (`parseInt`,
number-to-string coercion, `||` on numbers, truthiness) are modelled
explicitly; times and durations are `Int` milliseconds; the three
tenths-scaled telemetry fields are modelled over `ℚ`.
-/

/-! ### JavaScript primitive models -/

/-- Whitespace characters skipped by JavaScript `parseInt`. -/
def jsIsSpace (c : Char) : Bool :=
  c == ' ' || c == '\t' || c == '\n' || c == '\r'

/-- Accumulate a list of decimal digit characters into a natural number. -/
def digitsToNat (cs : List Char) : Nat :=
  cs.foldl (fun a c => a * 10 + (c.toNat - 48)) 0

/-- The digit-consuming core of JavaScript `parseInt` (radix 10): take the
longest digit run; if it is empty the result is `NaN`, modelled as `none`. -/
def jsParseIntCore (cs : List Char) : Option Nat :=
  let ds := cs.takeWhile Char.isDigit
  if ds.isEmpty then none else some (digitsToNat ds)

/-- JavaScript `parseInt(s)` on a decimal string: skip leading whitespace,
an optional sign, then the longest digit run; `NaN` is `none`. -/
def jsParseInt (s : String) : Option Int :=
  match s.toList.dropWhile jsIsSpace with
  | '-' :: rest => (jsParseIntCore rest).map (fun n => -(n : Int))
  | '+' :: rest => (jsParseIntCore rest).map (fun n => (n : Int))
  | cs => (jsParseIntCore cs).map (fun n => (n : Int))

/-- `parseInt(arr[i])` in JavaScript: an out-of-range index yields
`undefined`, and `parseInt(undefined)` is `NaN`; both are `none`. -/
def parseIntAt (l : List String) (i : Nat) : Option Int :=
  (l.get? i).bind jsParseInt

/-- Little-endian base-10 digits of `n`, structurally recursive on a fuel
argument so that it evaluates by `decide`.  With fuel above `n` it agrees
with `Nat.digits 10 n` (proved below). -/
def decDigitsAux : Nat → Nat → List Nat
  | 0, _ => []
  | fuel + 1, n => if n = 0 then [] else n % 10 :: decDigitsAux fuel (n / 10)

/-- JavaScript coercion of a nonnegative integer to its decimal string,
as performed by the template literal id synthesis in the status decoder. -/
def jsNatToString (n : Nat) : String :=
  if n = 0 then "0"
  else (((decDigitsAux (n + 1) n).map Nat.digitChar).reverse).asString

/-! ### Data model (from `src/wattbox.ts`, current revision) -/

structure WattBoxInformation where
  hostname : String
  model : String
  serialNumber : String
deriving Repr, DecidableEq

structure WattBoxConnectionStatus where
  targetIp : String
  responseTimeMs : Option Int
  timeoutPercent : Option Int
deriving Repr, DecidableEq

structure WattBoxAutoReboot where
  enabled : Bool
  connections : List WattBoxConnectionStatus
deriving Repr, DecidableEq

inductive WattBoxOutletStatus where
  | UNKNOWN
  | OFF
  | ON
deriving Repr, DecidableEq

/-- The numeric value of each `WattBoxOutletStatus` enum member. -/
def WattBoxOutletStatus.toInt : WattBoxOutletStatus → Int
  | .UNKNOWN => -1
  | .OFF => 0
  | .ON => 1

inductive WattBoxOutletMode where
  | DISABLED
  | NORMAL
  | RESET_ONLY
deriving Repr, DecidableEq

/-- The numeric value of each `WattBoxOutletMode` enum member. -/
def WattBoxOutletMode.toInt : WattBoxOutletMode → Int
  | .DISABLED => 0
  | .NORMAL => 1
  | .RESET_ONLY => 2

inductive WattBoxOutletAction where
  | OFF
  | ON
  | POWER_RESET
  | AUTO_REBOOT_ON
  | AUTO_REBOOT_OFF
deriving Repr, DecidableEq

/-- The numeric value of each `WattBoxOutletAction` enum member. -/
def WattBoxOutletAction.toInt : WattBoxOutletAction → Int
  | .OFF => 0
  | .ON => 1
  | .POWER_RESET => 3
  | .AUTO_REBOOT_ON => 4
  | .AUTO_REBOOT_OFF => 5

/-- An outlet record of a decoded snapshot.  `status` and `mode` hold the
raw `parseInt` results (`none` models `NaN`); the enum members above give
their intended values. -/
structure WattBoxOutlet where
  id : String
  name : String
  status : Option Int
  mode : Option Int
deriving Repr, DecidableEq

structure WattBoxLEDs where
  internet : Option Int
  system : Option Int
  autoReboot : Option Int
deriving Repr, DecidableEq

structure WattBoxUPS where
  audibleAlarmEnabled : Bool
  estRunTimeMinutes : Option Int
  batteryTestEnabled : Bool
  batteryHealthy : Bool
  batteryChargePercent : Option Int
  batteryLoadPercent : Option Int
  onBattery : Bool
  isMuted : Bool
deriving Repr, DecidableEq

structure WattBoxStatus where
  information : WattBoxInformation
  autoReboot : WattBoxAutoReboot
  outlets : List WattBoxOutlet
  leds : WattBoxLEDs
  safeVoltageStatus : Option Int
  voltage : Option ℚ
  current : Option ℚ
  power : Option ℚ
  cloudOnline : Bool
  ups : Option WattBoxUPS
deriving Repr, DecidableEq

/-- The decoded XML response body of `GET /wattbox_info.xml`, after the
xml2js value processor has split comma-delimited scalars into lists. -/
structure WattBoxInfoResponseBody where
  host_name : String
  hardware_version : String
  serial_number : String
  site_ip : List String
  connect_status : List String
  site_lost : List String
  auto_reboot : String
  outlet_name : List String
  outlet_status : List String
  outlet_method : List String
  led_status : List String
  safe_voltage_status : String
  voltage_value : String
  current_value : String
  power_value : String
  cloud_status : String
  hasUPS : String
  audible_alarm : String
  est_run_time : String
  battery_test : String
  battery_health : String
  battery_charge : String
  battery_load : String
  power_lost : String
  mute : String
deriving Repr, DecidableEq

structure WattBoxConfig where
  address : String
  username : String
  password : String
  outletStatusPollInterval : Option Int
  outletStatusCacheTtl : Option Int
deriving Repr, DecidableEq

/-! ### Status decoding (the callback body of `WattBox.getStatus`) -/

/-- The snapshot construction performed inside `getStatus` on the decoded
response body (`src/wattbox.ts`, current revision, lines 412-457). -/
def decodeStatus (request : WattBoxInfoResponseBody) : WattBoxStatus :=
  { information :=
      { hostname := request.host_name
        model := request.hardware_version
        serialNumber := request.serial_number }
    autoReboot :=
      { enabled := request.auto_reboot == "1"
        connections :=
          (request.site_ip.enum.map (fun p =>
            { targetIp := p.2
              responseTimeMs := parseIntAt request.connect_status p.1
              timeoutPercent := parseIntAt request.site_lost p.1 })).filter
            (fun c => c.targetIp != "0") }
    outlets :=
      request.outlet_name.enum.map (fun p =>
        { id := jsNatToString (p.1 + 1)
          name := p.2
          status := parseIntAt request.outlet_status p.1
          mode := parseIntAt request.outlet_method p.1 })
    leds :=
      { internet := parseIntAt request.led_status 0
        system := parseIntAt request.led_status 1
        autoReboot := parseIntAt request.led_status 2 }
    safeVoltageStatus := jsParseInt request.safe_voltage_status
    voltage := (jsParseInt request.voltage_value).map (fun n => (n : ℚ) / 10)
    current := (jsParseInt request.current_value).map (fun n => (n : ℚ) / 10)
    power := (jsParseInt request.power_value).map (fun n => (n : ℚ) / 10)
    cloudOnline := request.cloud_status == "1"
    ups :=
      if request.hasUPS == "0" then none
      else some
        { audibleAlarmEnabled := request.audible_alarm == "1"
          estRunTimeMinutes := jsParseInt request.est_run_time
          batteryTestEnabled := request.battery_test == "1"
          batteryHealthy := request.battery_health == "1"
          batteryChargePercent := jsParseInt request.battery_charge
          batteryLoadPercent := jsParseInt request.battery_load
          onBattery := request.power_lost == "1"
          isMuted := request.mute == "1" } }

/-! ### Configuration clamping (`src/wattbox.ts`, current revision) -/

def OUTLET_STATUS_CACHE_TTL_MS_DEFAULT : Int := 15 * 1000

def OUTLET_STATUS_CACHE_TTL_MS_MIN : Int := 5 * 1000

def OUTLET_STATUS_CACHE_TTL_MS_MAX : Int := 60 * 1000

def OUTLET_STATUS_POLL_INTERVAL_MS_DEFAULT : Int := 15 * 1000

def OUTLET_STATUS_POLL_INTERVAL_MS_MIN : Int := 5 * 1000

def OUTLET_STATUS_POLL_INTERVAL_MS_MAX : Int := 60 * 1000

/-- JavaScript `x || d` on integer-valued numbers: `0` is falsy. -/
def jsOrNum (x d : Int) : Int :=
  if x = 0 then d else x

/-- The `outletStatusCacheTtlMs` getter:
`max(MIN, min(MAX, (config.outletStatusCacheTtl ?? 0) * 1000 || DEFAULT))`. -/
def outletStatusCacheTtlMs (config : WattBoxConfig) : Int :=
  max OUTLET_STATUS_CACHE_TTL_MS_MIN
    (min OUTLET_STATUS_CACHE_TTL_MS_MAX
      (jsOrNum ((config.outletStatusCacheTtl.getD 0) * 1000)
        OUTLET_STATUS_CACHE_TTL_MS_DEFAULT))

/-- The `pollIntervalMs` getter:
`max(MIN, min(MAX, config.outletStatusPollInterval ?? DEFAULT))`. -/
def pollIntervalMs (config : WattBoxConfig) : Int :=
  max OUTLET_STATUS_POLL_INTERVAL_MS_MIN
    (min OUTLET_STATUS_POLL_INTERVAL_MS_MAX
      (config.outletStatusPollInterval.getD OUTLET_STATUS_POLL_INTERVAL_MS_DEFAULT))

/-- The TTL rule as the specification words it: the configured value (in
seconds) clamped to [5s, 60s], with a 15s default when unset. -/
def claimClampedTtlMs : Option Int → Int
  | none => 15 * 1000
  | some t => max (5 * 1000) (min (60 * 1000) (t * 1000))

/-! ### Lock keys -/

def OUTLET_STATUS_LOCK : String := "OUTLET_STATUS"

/-- The lock key `getStatus` acquires (`this.lock.acquire(WattBox.OUTLET_STATUS_LOCK, ...)`). -/
def getStatusLockKey : String := OUTLET_STATUS_LOCK

/-- The lock key `commandOutlet` acquires (`this.lock.acquire(WattBox.OUTLET_STATUS_LOCK, ...)`). -/
def commandOutletLockKey : String := OUTLET_STATUS_LOCK

/-! ### StatusCache and single-flight state machine

`getStatus` serializes all callers on the single `AsyncLock` key
`OUTLET_STATUS`, so a group of concurrent calls executes as a sequence of
steps against the shared cache state.  One step is one serialized
`getStatus` call; the transport is an oracle from the fetch index to the
outcome of that `xmlRequest`. -/

structure StatusCacheState where
  /-- The `outlet-status` cache entry: the stored snapshot with its expiry
  instant in ms, or `none` when the entry is absent. -/
  cache : Option (WattBoxStatus × Int)
  /-- How many transport fetches of `/wattbox_info.xml` have been issued. -/
  fetches : Nat
deriving Repr, DecidableEq

/-- Modelled from the spec: `cache-manager`'s `wrap` (not part of this
repository) returns a present, unexpired entry verbatim without invoking
the refresh callback; on a miss it invokes the callback and stores a
successful result with expiry `now + ttl`, while a failed refresh is
surfaced and leaves the cache empty (§4.1, current policy B).  The refresh
callback itself (fetch then `decodeStatus`) is from the source. -/
def getStatusStep (oracle : Nat → Except String WattBoxInfoResponseBody)
    (ttlMs now : Int) (st : StatusCacheState) :
    Except String WattBoxStatus × StatusCacheState :=
  match st.cache with
  | some (s, expiry) =>
    if now < expiry then (.ok s, st)
    else
      match oracle st.fetches with
      | .ok body =>
        (.ok (decodeStatus body),
          ⟨some (decodeStatus body, now + ttlMs), st.fetches + 1⟩)
      | .error e => (.error e, ⟨none, st.fetches + 1⟩)
  | none =>
    match oracle st.fetches with
    | .ok body =>
      (.ok (decodeStatus body),
        ⟨some (decodeStatus body, now + ttlMs), st.fetches + 1⟩)
    | .error e => (.error e, ⟨none, st.fetches + 1⟩)

/-- `n` concurrent `getStatus` calls, serialized by the `OUTLET_STATUS`
lock into `n` consecutive steps within the same instant `now`. -/
def runGetStatus (oracle : Nat → Except String WattBoxInfoResponseBody)
    (ttlMs now : Int) :
    Nat → StatusCacheState → List (Except String WattBoxStatus) × StatusCacheState
  | 0, st => ([], st)
  | n + 1, st =>
    let (r, st') := getStatusStep oracle ttlMs now st
    let (rs, st'') := runGetStatus oracle ttlMs now n st'
    (r :: rs, st'')

/-- One serialized `commandOutlet` call, given the outcome of its
`/control.cgi` request: on success the `outlet-status` cache entry is
deleted (`cache.del`, modelled from the spec as removing the entry); on
failure the thrown error propagates before the deletion is reached, so the
cache is left untouched. -/
def commandOutletStep (cmdResult : Except String Unit) (st : StatusCacheState) :
    Except String Unit × StatusCacheState :=
  match cmdResult with
  | .ok _ => (.ok (), ⟨none, st.fetches⟩)
  | .error e => (.error e, st)

/-! ### getOutletStatus -/

/-- `getOutletStatus` on an already-obtained snapshot: find the outlet
whose `id` equals the requested one, or throw an unknown-outlet error
(`src/wattbox.ts`, current revision, lines 464-471). -/
def getOutletStatus (status : WattBoxStatus) (outletId : String) :
    Except String WattBoxOutlet :=
  match status.outlets.find? (fun o => o.id == outletId) with
  | some o => .ok o
  | none => .error ("unknown outlet with id=" ++ outletId)

/-! ### Transport (current revision `xmlRequest`, raw socket) -/

/-- The outcome of one connection attempt: a socket-level error, or a
parsed HTTP response with its status code and body. -/
inductive ConnAttempt where
  | connError (e : String)
  | response (statusCode : Nat) (body : String)
deriving Repr, DecidableEq

/-- How an HTTP response is settled: 2xx resolves with the body, any other
status rejects. -/
def settleResponse (statusCode : Nat) (body : String) : Except String String :=
  if 200 ≤ statusCode ∧ statusCode < 300 then .ok body
  else .error ("HTTP request failed with status " ++ toString statusCode)

/-- The current revision's `xmlRequest` over a connection oracle: it opens
one socket; a socket error rejects immediately and a response is settled
by status code.  The second component counts connection attempts made. -/
def xmlRequestRun (oracle : Nat → ConnAttempt) : Except String String × Nat :=
  match oracle 0 with
  | .connError e => (.error e, 1)
  | .response c b => (settleResponse c b, 1)

/-- Modelled from the spec: a transport that retries a connection-level
failure, making up to 3 attempts in total before surfacing the error
(§4.6); a received HTTP response is settled without further retry. -/
def specRetryRequestAux (oracle : Nat → ConnAttempt) :
    Nat → Nat → Except String String × Nat
  | 0, k => (.error "no attempts", k)
  | fuel + 1, k =>
    match oracle k with
    | .connError e =>
      if fuel = 0 then (.error e, k + 1) else specRetryRequestAux oracle fuel (k + 1)
    | .response c b => (settleResponse c b, k + 1)

/-- The spec's retrying transport with its bound of 3 attempts. -/
def specRetryRequest (oracle : Nat → ConnAttempt) : Except String String × Nat :=
  specRetryRequestAux oracle 3 0

/-! ### Poller (the `poll` closure inside `WattBox.subscribe`) -/

/-- The environment one poll tick observes: the topic's current subscriber
count and the outcome of `getOutletStatus` for the polled outlet. -/
structure PollTickEnv where
  subscriberCount : Nat
  fetchResult : Except String WattBoxOutlet
deriving Repr

/-- One tick of the poll loop: if the subscriber count is zero the tick
returns without publishing or rescheduling; otherwise a successful fetch
is published, an error is caught and logged, and in both cases the next
tick is scheduled after `pollIntervalMs`.  The result is the published
payload (if any) and the scheduled delay (if any). -/
def pollTick (config : WattBoxConfig) (env : PollTickEnv) :
    Option WattBoxOutlet × Option Int :=
  if env.subscriberCount = 0 then (none, none)
  else
    (match env.fetchResult with
      | .ok o => some o
      | .error _ => none,
      some (pollIntervalMs config))

/-- The poll loop run over a trace of tick environments: it keeps ticking
while each tick reschedules, and stops for good at the first tick that
does not.  Returns the per-tick published payloads. -/
def runPoll (config : WattBoxConfig) : List PollTickEnv → List (Option WattBoxOutlet)
  | [] => []
  | env :: rest =>
    match pollTick config env with
    | (pub, some _) => pub :: runPoll config rest
    | (_, none) => []

/-! ### Subscription wrapper (`PubSub.subscribe` callback in `subscribe`) -/

/-- A payload carried by a pub/sub message as a JavaScript value: the
outlet object, or a missing value (`null`/`undefined`). -/
inductive PubSubPayload where
  | undefinedVal
  | nullVal
  | outlet (o : WattBoxOutlet)
deriving Repr, DecidableEq

/-- JavaScript falsiness of a payload: `null` and `undefined` are falsy,
an object is always truthy. -/
def jsFalsyPayload : PubSubPayload → Bool
  | .undefinedVal => true
  | .nullVal => true
  | .outlet _ => false

/-- The outlet an outlet-carrying payload holds. -/
def PubSubPayload.toOutlet : PubSubPayload → Option WattBoxOutlet
  | .outlet o => some o
  | _ => none

/-- The wrapper `subscribe` registers around the caller's `func`:
`if (!data) return; func(data)`.  The result is the argument `func` is
invoked with, or `none` when `func` is not invoked. -/
def subscriptionListener (data : PubSubPayload) : Option WattBoxOutlet :=
  if jsFalsyPayload data then none else data.toOutlet

/-- The invocations of `func` produced by a sequence of publishes on the
subscribed topic. -/
def deliveredInvocations (published : List PubSubPayload) : List WattBoxOutlet :=
  published.filterMap subscriptionListener

/-! ### Accessory `getOn` (`src/platformAccessory.ts`) -/

inductive HAPStatus where
  | NOT_ALLOWED_IN_CURRENT_STATE
  | SERVICE_COMMUNICATION_FAILURE
  | READ_ONLY_CHARACTERISTIC
deriving Repr, DecidableEq

/-- The accessory's `status` field right after construction (current
revision): `private status = WattBoxOutletStatus.UNKNOWN`. -/
def initialAccessoryStatus : Int := WattBoxOutletStatus.UNKNOWN.toInt

/-- The current revision's `getOn`: throw `NOT_ALLOWED_IN_CURRENT_STATE`
while the status is the `UNKNOWN` sentinel, otherwise return `!!status`. -/
def getOn (status : Int) : Except HAPStatus Bool :=
  if status = WattBoxOutletStatus.UNKNOWN.toInt then
    .error .NOT_ALLOWED_IN_CURRENT_STATE
  else .ok (status != 0)

/-- A JavaScript value as seen by the legacy revision's `getOn` guard:
`null` or a number (the enum member's numeric value). -/
inductive JSVal where
  | nullVal
  | num (n : Int)
deriving Repr, DecidableEq

/-- JavaScript truthiness of such a value. -/
def jsTruthy : JSVal → Bool
  | .nullVal => false
  | .num n => n != 0

/-- The legacy revision's `getOn` (`src/platformAccessory.ts`, first
revision, lines 74-84): throw only when `status === null`, otherwise
return `!!status`. -/
def getOnLegacy (status : JSVal) : Except HAPStatus Bool :=
  if status = JSVal.nullVal then .error .NOT_ALLOWED_IN_CURRENT_STATE
  else .ok (jsTruthy status)

/-- The legacy revision's `status` field right after construction:
`private status = WattBoxOutletStatus.UNKNOWN`, i.e. the number `-1`. -/
def legacyInitialAccessoryStatus : JSVal := .num WattBoxOutletStatus.UNKNOWN.toInt

/-! ### Concrete sample data -/

/-- A concrete decoded `/wattbox_info.xml` response body realizing the
specification's concrete scenario: outlet names `["A","B"]` with statuses
`["1","0"]`, tenths-scaled telemetry, and no UPS. -/
def sampleBody : WattBoxInfoResponseBody :=
  { host_name := "wattbox"
    hardware_version := "WB-300-IP-3"
    serial_number := "ST123456789"
    site_ip := ["192.168.1.1", "0"]
    connect_status := ["12", "0"]
    site_lost := ["0", "0"]
    auto_reboot := "1"
    outlet_name := ["A", "B"]
    outlet_status := ["1", "0"]
    outlet_method := ["1", "1"]
    led_status := ["1", "1", "0"]
    safe_voltage_status := "1"
    voltage_value := "1200"
    current_value := "15"
    power_value := "600"
    cloud_status := "1"
    hasUPS := "0"
    audible_alarm := "0"
    est_run_time := "0"
    battery_test := "0"
    battery_health := "0"
    battery_charge := "0"
    battery_load := "0"
    power_lost := "0"
    mute := "0" }

/-- A transport oracle on which every fetch fails at the connection level. -/
def failOracle : Nat → Except String WattBoxInfoResponseBody :=
  fun _ => .error "connect ECONNREFUSED"

/-- A connection oracle whose first attempt fails transiently and whose
later attempts would succeed. -/
def retryProbeOracle : Nat → ConnAttempt
  | 0 => .connError "read ECONNRESET"
  | _ + 1 => .response 200 "<request></request>"

/-! ### Helper lemmas -/

theorem decDigitsAux_eq_digits (fuel n : Nat) (h : n < fuel) :
    decDigitsAux fuel n = Nat.digits 10 n := by
  induction fuel generalizing n with
  | zero => omega
  | succ fuel ih =>
    by_cases hn : n = 0
    · subst hn; simp [decDigitsAux]
    · rw [decDigitsAux, if_neg hn,
        Nat.digits_def' (b := 10) (by norm_num) (Nat.pos_of_ne_zero hn),
        ih (n / 10) (by omega)]

theorem digitChar_inj_lt_ten :
    ∀ d₁ < 10, ∀ d₂ < 10, Nat.digitChar d₁ = Nat.digitChar d₂ → d₁ = d₂ := by
  decide

theorem map_digitChar_inj :
    ∀ (l₁ l₂ : List Nat), (∀ d ∈ l₁, d < 10) → (∀ d ∈ l₂, d < 10) →
      l₁.map Nat.digitChar = l₂.map Nat.digitChar → l₁ = l₂ := by
  intro l₁
  induction l₁ with
  | nil => intro l₂ _ _ h; cases l₂ <;> simp_all
  | cons a l ih =>
    intro l₂ h₁ h₂ h
    cases l₂ with
    | nil => simp_all
    | cons b l₂ =>
      simp only [List.map_cons, List.cons.injEq] at h
      have hab : a = b :=
        digitChar_inj_lt_ten a (h₁ a (by simp)) b (h₂ b (by simp)) h.1
      have := ih l₂ (fun d hd => h₁ d (by simp [hd])) (fun d hd => h₂ d (by simp [hd])) h.2
      simp [hab, this]

theorem jsNatToString_inj_pos (m n : Nat) (hm : 0 < m) (hn : 0 < n)
    (h : jsNatToString m = jsNatToString n) : m = n := by
  unfold jsNatToString at h
  rw [if_neg (by omega), if_neg (by omega)] at h
  have hdata := congrArg String.data h
  simp only [List.asString] at hdata
  have hrev := List.reverse_injective hdata
  rw [decDigitsAux_eq_digits _ m (by omega), decDigitsAux_eq_digits _ n (by omega)] at hrev
  have hdig : Nat.digits 10 m = Nat.digits 10 n :=
    map_digitChar_inj _ _ (fun d hd => Nat.digits_lt_base (by norm_num) hd)
      (fun d hd => Nat.digits_lt_base (by norm_num) hd) hrev
  exact Nat.digits_inj_iff.mp hdig

/-! ### Claim C10: a configured TTL of 0 yields the default, not the clamp -/

/-- C10: configuring `outletStatusCacheTtl` to `0` yields the 15s default
TTL rather than the 5s minimum clamp, because
`(config.outletStatusCacheTtl ?? 0) * 1000 || DEFAULT` treats a configured
zero the same as an absent value. -/
theorem C10_ttl_zero_yields_default :
    outletStatusCacheTtlMs ⟨"http://192.168.1.100", "u", "p", none, some 0⟩ =
      OUTLET_STATUS_CACHE_TTL_MS_DEFAULT ∧
    outletStatusCacheTtlMs ⟨"http://192.168.1.100", "u", "p", none, some 0⟩ =
      outletStatusCacheTtlMs ⟨"http://192.168.1.100", "u", "p", none, none⟩ ∧
    outletStatusCacheTtlMs ⟨"http://192.168.1.100", "u", "p", none, some 0⟩ ≠
      OUTLET_STATUS_CACHE_TTL_MS_MIN := by
  refine ⟨by decide, by decide, by decide⟩

/-! ### Claim C5: configuration clamping -/

/-- C5 counterexample: the claim says the effective TTL always equals the
configured value clamped to [5s, 60s], so a configured 0s would clamp to
5000ms; the code maps a configured 0 to the 15000ms default instead. -/
theorem C5_clamp_counterexample :
    outletStatusCacheTtlMs ⟨"http://192.168.1.100", "u", "p", none, some 0⟩ = 15 * 1000 ∧
    claimClampedTtlMs (some 0) = 5 * 1000 ∧
    outletStatusCacheTtlMs ⟨"http://192.168.1.100", "u", "p", none, some 0⟩ ≠
      claimClampedTtlMs (some 0) := by
  refine ⟨by decide, by decide, by decide⟩

/-- C5 (amended): the effective TTL equals the configured value clamped to
[5s, 60s] for every configured value other than 0, while an absent or zero
value yields the 15s default; the effective poll interval equals the
configured value clamped to [5000ms, 60000ms], defaulting to 15000ms when
unset; in particular 1s clamps to 5s and 120s clamps to 60s. -/
theorem C5_config_clamping (config : WattBoxConfig) :
    (∀ t, config.outletStatusCacheTtl = some t → t ≠ 0 →
      outletStatusCacheTtlMs config = max (5 * 1000) (min (60 * 1000) (t * 1000))) ∧
    ((config.outletStatusCacheTtl = none ∨ config.outletStatusCacheTtl = some 0) →
      outletStatusCacheTtlMs config = 15 * 1000) ∧
    (∀ p, config.outletStatusPollInterval = some p →
      pollIntervalMs config = max 5000 (min 60000 p)) ∧
    (config.outletStatusPollInterval = none → pollIntervalMs config = 15000) ∧
    outletStatusCacheTtlMs
      ⟨config.address, config.username, config.password,
        config.outletStatusPollInterval, some 1⟩ = 5 * 1000 ∧
    outletStatusCacheTtlMs
      ⟨config.address, config.username, config.password,
        config.outletStatusPollInterval, some 120⟩ = 60 * 1000 := by
  refine ⟨?_, ?_, ?_, ?_, ?_, ?_⟩
  · intro t ht htz
    simp only [outletStatusCacheTtlMs, ht, Option.getD_some, jsOrNum,
      OUTLET_STATUS_CACHE_TTL_MS_MIN, OUTLET_STATUS_CACHE_TTL_MS_MAX,
      OUTLET_STATUS_CACHE_TTL_MS_DEFAULT]
    rw [if_neg (by omega)]
  · rintro (h | h) <;>
      simp [outletStatusCacheTtlMs, h, jsOrNum, OUTLET_STATUS_CACHE_TTL_MS_MIN,
        OUTLET_STATUS_CACHE_TTL_MS_MAX, OUTLET_STATUS_CACHE_TTL_MS_DEFAULT]
  · intro p hp
    simp [pollIntervalMs, hp, OUTLET_STATUS_POLL_INTERVAL_MS_MIN,
      OUTLET_STATUS_POLL_INTERVAL_MS_MAX]
  · intro hp
    simp [pollIntervalMs, hp, OUTLET_STATUS_POLL_INTERVAL_MS_MIN,
      OUTLET_STATUS_POLL_INTERVAL_MS_MAX, OUTLET_STATUS_POLL_INTERVAL_MS_DEFAULT]
  · simp [outletStatusCacheTtlMs, jsOrNum, OUTLET_STATUS_CACHE_TTL_MS_MIN,
      OUTLET_STATUS_CACHE_TTL_MS_MAX, OUTLET_STATUS_CACHE_TTL_MS_DEFAULT]
  · simp [outletStatusCacheTtlMs, jsOrNum, OUTLET_STATUS_CACHE_TTL_MS_MIN,
      OUTLET_STATUS_CACHE_TTL_MS_MAX, OUTLET_STATUS_CACHE_TTL_MS_DEFAULT]

/-- C5 witness: the amended theorem applied to a concrete configuration
with a 120s TTL and a 7000ms poll interval. -/
theorem C5_config_clamping_witness :
    outletStatusCacheTtlMs ⟨"http://192.168.1.100", "u", "p", some 7000, some 120⟩ =
      max (5 * 1000) (min (60 * 1000) (120 * 1000)) ∧
    pollIntervalMs ⟨"http://192.168.1.100", "u", "p", some 7000, some 120⟩ =
      max 5000 (min 60000 7000) :=
  ⟨(C5_config_clamping ⟨"http://192.168.1.100", "u", "p", some 7000, some 120⟩).1
      120 rfl (by decide),
    (C5_config_clamping ⟨"http://192.168.1.100", "u", "p", some 7000, some 120⟩).2.2.1
      7000 rfl⟩

/-! ### Claim C4: the pre-fetch UNKNOWN sentinel -/

/-- C4: before the first successful fetch the accessory status is the
`UNKNOWN` sentinel, distinct from `OFF`, and the current revision's `getOn`
raises `NOT_ALLOWED_IN_CURRENT_STATE` there instead of coercing `UNKNOWN`
to a boolean; the legacy revision at `src/platformAccessory.ts:74-84`
violates this: its guard compares the `UNKNOWN`-initialized status against
`null`, which never matches, so the pre-fetch read returns `!!(-1) = true`
and reports the outlet as ON. -/
theorem C4_getOn_unknown :
    initialAccessoryStatus = WattBoxOutletStatus.UNKNOWN.toInt ∧
    WattBoxOutletStatus.UNKNOWN ≠ WattBoxOutletStatus.OFF ∧
    WattBoxOutletStatus.UNKNOWN.toInt ≠ WattBoxOutletStatus.OFF.toInt ∧
    getOn initialAccessoryStatus = .error .NOT_ALLOWED_IN_CURRENT_STATE ∧
    getOnLegacy legacyInitialAccessoryStatus = .ok true :=
  ⟨rfl, by decide, by decide, rfl, rfl⟩

/-! ### Claim C8: falsy publishes are discarded by the subscribe wrapper -/

/-- C8: the wrapper that `subscribe` registers around the caller's `func`
invokes `func` exactly on truthy payloads: a publish carrying `null` or
`undefined` is silently discarded, and a publish carrying an outlet object
reaches `func` with that outlet, so across any publish sequence the
invocations of `func` are exactly the outlet-carrying publishes in order. -/
theorem C8_subscribe_discards_falsy (o : WattBoxOutlet) (published : List PubSubPayload) :
    subscriptionListener .nullVal = none ∧
    subscriptionListener .undefinedVal = none ∧
    subscriptionListener (.outlet o) = some o ∧
    deliveredInvocations published = published.filterMap PubSubPayload.toOutlet := by
  refine ⟨rfl, rfl, rfl, ?_⟩
  unfold deliveredInvocations
  congr 1
  funext d
  cases d <;> rfl

/-! ### Claim C6: transport retry -/

/-- C6 counterexample: on a connection oracle whose first attempt fails
transiently and whose retry would succeed, the current `xmlRequest`
surfaces the connection error after exactly one attempt, whereas the
spec's retrying transport (up to 3 attempts) would succeed on the second
attempt. -/
theorem C6_no_retry_counterexample :
    xmlRequestRun retryProbeOracle = (.error "read ECONNRESET", 1) ∧
    specRetryRequest retryProbeOracle = (.ok "<request></request>", 2) ∧
    (xmlRequestRun retryProbeOracle).1 ≠ (specRetryRequest retryProbeOracle).1 := by
  refine ⟨rfl, rfl, ?_⟩
  intro h
  simp [xmlRequestRun, specRetryRequest, specRetryRequestAux, retryProbeOracle,
    settleResponse] at h

/-- C6 (amended): the current socket transport makes exactly one
connection attempt per request: a connection-level failure is surfaced to
the caller immediately, with no automatic retry, and a received response
is settled by its status code.  (Only the legacy axios transport retried,
via axios-retry with `retries: 3`.) -/
theorem C6_transport_single_attempt (oracle : Nat → ConnAttempt) :
    (xmlRequestRun oracle).2 = 1 ∧
    (∀ e, oracle 0 = .connError e → xmlRequestRun oracle = (.error e, 1)) ∧
    (∀ c b, oracle 0 = .response c b → xmlRequestRun oracle = (settleResponse c b, 1)) := by
  refine ⟨?_, ?_, ?_⟩
  · unfold xmlRequestRun
    cases oracle 0 <;> rfl
  · intro e he
    unfold xmlRequestRun
    rw [he]
  · intro c b hcb
    unfold xmlRequestRun
    rw [hcb]

/-- C6 witness: the amended theorem applied to the probe oracle, whose
first attempt is a transient connection failure. -/
theorem C6_transport_single_attempt_witness :
    xmlRequestRun retryProbeOracle = (.error "read ECONNRESET", 1) :=
  (C6_transport_single_attempt retryProbeOracle).2.1 "read ECONNRESET" rfl

/-! ### Claim C7: the poll loop -/

/-- C7: each poll tick re-checks the subscriber count first: with zero
subscribers the tick neither publishes nor reschedules and the loop ends;
with at least one subscriber the tick publishes the fetched outlet on
success, publishes nothing on a fetch error, and in either case schedules
the next tick after `pollIntervalMs`, so the loop continues over the rest
of the trace and only losing all subscribers stops it. -/
theorem C7_poll_loop (config : WattBoxConfig) (env : PollTickEnv)
    (rest : List PollTickEnv) :
    (env.subscriberCount = 0 →
      pollTick config env = (none, none) ∧ runPoll config (env :: rest) = []) ∧
    (env.subscriberCount ≠ 0 →
      (pollTick config env).2 = some (pollIntervalMs config) ∧
      runPoll config (env :: rest) =
        (match env.fetchResult with
          | .ok o => some o
          | .error _ => none) :: runPoll config rest) := by
  constructor
  · intro h0
    have hp : pollTick config env = (none, none) := by
      unfold pollTick
      rw [if_pos h0]
    refine ⟨hp, ?_⟩
    unfold runPoll
    rw [hp]
  · intro hne
    have hp : pollTick config env =
        (match env.fetchResult with
          | .ok o => some o
          | .error _ => none, some (pollIntervalMs config)) := by
      unfold pollTick
      rw [if_neg hne]
    refine ⟨by rw [hp], ?_⟩
    conv_lhs => rw [runPoll]
    rw [hp]

/-- C7 witness: a trace whose first tick has a subscriber and a failing
fetch (the loop publishes nothing but continues), and whose second tick
has no subscribers (the loop stops without processing the rest). -/
theorem C7_poll_loop_witness :
    runPoll ⟨"http://192.168.1.100", "u", "p", none, none⟩
      (⟨1, .error "connect ECONNREFUSED"⟩ ::
        ⟨0, .ok ⟨"1", "A", some 1, some 1⟩⟩ ::
          [⟨1, .ok ⟨"1", "A", some 1, some 1⟩⟩]) = [none] := by
  have h1 := (C7_poll_loop ⟨"http://192.168.1.100", "u", "p", none, none⟩
    ⟨1, .error "connect ECONNREFUSED"⟩
    (⟨0, .ok ⟨"1", "A", some 1, some 1⟩⟩ :: [⟨1, .ok ⟨"1", "A", some 1, some 1⟩⟩])).2
    (by decide)
  have h2 := ((C7_poll_loop ⟨"http://192.168.1.100", "u", "p", none, none⟩
    ⟨0, .ok ⟨"1", "A", some 1, some 1⟩⟩
    [⟨1, .ok ⟨"1", "A", some 1, some 1⟩⟩]).1 rfl).2
  rw [h1.2, h2]

/-! ### Decoding lemmas shared by C3 and C9 -/

theorem enum_map_fst_apply {α β : Type} (l : List α) (g : Nat → β) :
    l.enum.map (fun p => g p.1) = (List.range l.length).map g := by
  rw [List.enum_eq_zip_range,
    show (fun p : Nat × α => g p.1) = g ∘ Prod.fst from rfl, ← List.map_map,
    List.map_fst_zip _ _ (le_of_eq (List.length_range _))]

theorem decode_outlets_getElem? (request : WattBoxInfoResponseBody) (i : Nat)
    (nm : String) (h : request.outlet_name[i]? = some nm) :
    (decodeStatus request).outlets[i]? =
      some ⟨jsNatToString (i + 1), nm, parseIntAt request.outlet_status i,
        parseIntAt request.outlet_method i⟩ := by
  have houtlets : (decodeStatus request).outlets =
      request.outlet_name.enum.map (fun p =>
        { id := jsNatToString (p.1 + 1)
          name := p.2
          status := parseIntAt request.outlet_status p.1
          mode := parseIntAt request.outlet_method p.1 }) := rfl
  rw [houtlets, List.getElem?_map, List.getElem?_enum, h]
  rfl

theorem decode_outlets_length (request : WattBoxInfoResponseBody) :
    (decodeStatus request).outlets.length = request.outlet_name.length := by
  have houtlets : (decodeStatus request).outlets =
      request.outlet_name.enum.map (fun p =>
        { id := jsNatToString (p.1 + 1)
          name := p.2
          status := parseIntAt request.outlet_status p.1
          mode := parseIntAt request.outlet_method p.1 }) := rfl
  rw [houtlets]
  simp

theorem decode_outlet_ids (request : WattBoxInfoResponseBody) :
    (decodeStatus request).outlets.map WattBoxOutlet.id =
      (List.range request.outlet_name.length).map (fun i => jsNatToString (i + 1)) := by
  have houtlets : (decodeStatus request).outlets =
      request.outlet_name.enum.map (fun p =>
        { id := jsNatToString (p.1 + 1)
          name := p.2
          status := parseIntAt request.outlet_status p.1
          mode := parseIntAt request.outlet_method p.1 }) := rfl
  rw [houtlets, List.map_map]
  exact enum_map_fst_apply request.outlet_name (fun i => jsNatToString (i + 1))

theorem decode_outlet_ids_nodup (request : WattBoxInfoResponseBody) :
    ((decodeStatus request).outlets.map WattBoxOutlet.id).Nodup := by
  rw [decode_outlet_ids]
  refine (List.nodup_range _).map_on ?_
  intro x _ y _ hxy
  have := jsNatToString_inj_pos (x + 1) (y + 1) (by omega) (by omega) hxy
  omega

theorem decode_outlet_id_get (request : WattBoxInfoResponseBody) (j : Nat)
    (h : j < (decodeStatus request).outlets.length) :
    ((decodeStatus request).outlets.get ⟨j, h⟩).id = jsNatToString (j + 1) := by
  have hj : j < request.outlet_name.length := by
    rw [← decode_outlets_length request]; exact h
  have hnm : request.outlet_name[j]? = some (request.outlet_name.get ⟨j, hj⟩) := by
    rw [List.get_eq_getElem]
    exact List.getElem?_eq_getElem hj
  have hsome := decode_outlets_getElem? request j _ hnm
  have hget : (decodeStatus request).outlets[j]? =
      some ((decodeStatus request).outlets.get ⟨j, h⟩) := by
    rw [List.get_eq_getElem]
    exact List.getElem?_eq_getElem h
  rw [hget] at hsome
  rw [Option.some.injEq] at hsome
  rw [hsome]

theorem find?_id_get (l : List WattBoxOutlet) :
    ∀ (j : Nat) (h : j < l.length), (l.map WattBoxOutlet.id).Nodup →
      l.find? (fun o => o.id == (l.get ⟨j, h⟩).id) = some (l.get ⟨j, h⟩) := by
  induction l with
  | nil => intro j h _; exact absurd h (by simp)
  | cons a t ih =>
    intro j h hnd
    rw [List.map_cons, List.nodup_cons] at hnd
    obtain ⟨hnotmem, hnd⟩ := hnd
    cases j with
    | zero =>
      exact List.find?_cons_of_pos _ (by simp)
    | succ j =>
      have hj : j < t.length := by simpa using h
      have hget : (a :: t).get ⟨j + 1, h⟩ = t.get ⟨j, hj⟩ := rfl
      rw [hget]
      have hne : a.id ≠ (t.get ⟨j, hj⟩).id := by
        intro he
        exact hnotmem (he ▸ List.mem_map_of_mem _ (List.get_mem t _ _))
      rw [List.find?_cons_of_neg _
        (by simp only [List.get_eq_getElem] at hne ⊢; simp [hne])]
      exact ih j hj hnd

/-! ### Claim C3: snapshot decoding -/

/-- C3: every decoded snapshot synthesizes its outlets in order from the
`outlet_name` sequence with 1-based positional decimal-string ids, pairing
each with the positionally matching decoded status and mode; voltage,
current and power equal the decoded integer divided by 10; the UPS
sub-record is absent exactly when `hasUPS` is the string `"0"`; and on the
concrete scenario (names `["A","B"]`, statuses `["1","0"]`) decoding
yields exactly `id "1" / name "A" / ON` then `id "2" / name "B" / OFF`. -/
theorem C3_decode_fields (request : WattBoxInfoResponseBody) :
    (∀ i nm, request.outlet_name[i]? = some nm →
      (decodeStatus request).outlets[i]? =
        some (⟨jsNatToString (i + 1), nm, parseIntAt request.outlet_status i,
          parseIntAt request.outlet_method i⟩ : WattBoxOutlet)) ∧
    (decodeStatus request).outlets.length = request.outlet_name.length ∧
    (decodeStatus request).voltage =
      (jsParseInt request.voltage_value).map (fun n => (n : ℚ) / 10) ∧
    (decodeStatus request).current =
      (jsParseInt request.current_value).map (fun n => (n : ℚ) / 10) ∧
    (decodeStatus request).power =
      (jsParseInt request.power_value).map (fun n => (n : ℚ) / 10) ∧
    ((decodeStatus request).ups = none ↔ request.hasUPS = "0") ∧
    (decodeStatus sampleBody).outlets =
      [⟨"1", "A", some WattBoxOutletStatus.ON.toInt, some 1⟩,
        ⟨"2", "B", some WattBoxOutletStatus.OFF.toInt, some 1⟩] ∧
    (decodeStatus sampleBody).voltage = some 120 ∧
    (decodeStatus sampleBody).ups = none := by
  refine ⟨decode_outlets_getElem? request, decode_outlets_length request,
    rfl, rfl, rfl, ?_, by decide, ?_, rfl⟩
  · have hups : (decodeStatus request).ups =
        (if request.hasUPS == "0" then none else some
          { audibleAlarmEnabled := request.audible_alarm == "1"
            estRunTimeMinutes := jsParseInt request.est_run_time
            batteryTestEnabled := request.battery_test == "1"
            batteryHealthy := request.battery_health == "1"
            batteryChargePercent := jsParseInt request.battery_charge
            batteryLoadPercent := jsParseInt request.battery_load
            onBattery := request.power_lost == "1"
            isMuted := request.mute == "1" }) := rfl
    rw [hups]
    by_cases hu : request.hasUPS = "0" <;> simp [hu]
  · have h : (decodeStatus sampleBody).voltage =
        (jsParseInt "1200").map (fun n => (n : ℚ) / 10) := rfl
    rw [h, show jsParseInt "1200" = some 1200 from by decide]
    simp [Option.map]
    norm_num

/-- C3 witness: the decoded fields of the concrete sample body, obtained
by applying the theorem at index 0 of the name sequence. -/
theorem C3_decode_fields_witness :
    (decodeStatus sampleBody).outlets[0]? =
      some ⟨jsNatToString 1, "A", parseIntAt ["1", "0"] 0, parseIntAt ["1", "1"] 0⟩ :=
  (C3_decode_fields sampleBody).1 0 "A" rfl

/-! ### Claim C9: outlet ids and lookup -/

/-- C9: the outlets of every decoded snapshot carry ids that are exactly
the decimal strings of 1 through n in ascending order (n the length of
the `outlet_name` sequence), hence pairwise distinct; `getOutletStatus`
returns the positionally matching outlet for each such id and throws the
unknown-outlet error for every id outside that set. -/
theorem C9_outlet_ids_lookup (request : WattBoxInfoResponseBody) :
    ((decodeStatus request).outlets.map WattBoxOutlet.id =
      (List.range request.outlet_name.length).map (fun i => jsNatToString (i + 1))) ∧
    ((decodeStatus request).outlets.map WattBoxOutlet.id).Nodup ∧
    (∀ j (h : j < (decodeStatus request).outlets.length),
      getOutletStatus (decodeStatus request) (jsNatToString (j + 1)) =
        .ok ((decodeStatus request).outlets.get ⟨j, h⟩)) ∧
    (∀ outletId, outletId ∉ (decodeStatus request).outlets.map WattBoxOutlet.id →
      getOutletStatus (decodeStatus request) outletId =
        .error ("unknown outlet with id=" ++ outletId)) := by
  refine ⟨decode_outlet_ids request, decode_outlet_ids_nodup request, ?_, ?_⟩
  · intro j h
    unfold getOutletStatus
    rw [← decode_outlet_id_get request j h,
      find?_id_get _ j h (decode_outlet_ids_nodup request)]
  · intro outletId hmem
    unfold getOutletStatus
    have hnone : (decodeStatus request).outlets.find? (fun o => o.id == outletId) = none := by
      rw [List.find?_eq_none]
      intro x hx
      simp only [beq_iff_eq]
      intro he
      exact hmem (he ▸ List.mem_map_of_mem _ hx)
    rw [hnone]

/-- C9 witness: on the decoded sample snapshot, looking up id "2" returns
outlet B and looking up id "3" throws the unknown-outlet error. -/
theorem C9_outlet_ids_lookup_witness :
    getOutletStatus (decodeStatus sampleBody) "2" = .ok ⟨"2", "B", some 0, some 1⟩ ∧
    getOutletStatus (decodeStatus sampleBody) "3" =
      .error "unknown outlet with id=3" := by
  constructor
  · have h1 := (C9_outlet_ids_lookup sampleBody).2.2.1 1 (by decide)
    rw [show jsNatToString (1 + 1) = "2" from by decide] at h1
    rw [h1]
    rfl
  · exact (C9_outlet_ids_lookup sampleBody).2.2.2 "3" (by decide)

/-! ### Claim C1: single-flight getStatus -/

theorem runGetStatus_hit (oracle : Nat → Except String WattBoxInfoResponseBody)
    (ttlMs now : Int) (s : WattBoxStatus) (expiry : Int) (f : Nat) (m : Nat)
    (h : now < expiry) :
    runGetStatus oracle ttlMs now m ⟨some (s, expiry), f⟩ =
      (List.replicate m (.ok s), ⟨some (s, expiry), f⟩) := by
  induction m with
  | zero => rfl
  | succ m ih =>
    have hstep : getStatusStep oracle ttlMs now ⟨some (s, expiry), f⟩ =
        (.ok s, ⟨some (s, expiry), f⟩) := by
      unfold getStatusStep
      simp [if_pos h]
    rw [runGetStatus]
    rw [hstep]
    simp only []
    rw [ih]
    rfl

/-- C1 counterexample: the claim asserts that for every N ≥ 1 concurrent
cold-cache `getStatus` calls exactly one transport fetch occurs; with two
serialized cold-cache calls whose fetches fail, the error is not cached,
so the second call fetches again: two fetches occur, not one. -/
theorem C1_single_flight_counterexample :
    (runGetStatus failOracle 15000 0 2 ⟨none, 0⟩).2.fetches = 2 ∧
    (runGetStatus failOracle 15000 0 2 ⟨none, 0⟩).2.fetches ≠ 1 ∧
    (runGetStatus failOracle 15000 0 2 ⟨none, 0⟩).1 =
      [.error "connect ECONNREFUSED", .error "connect ECONNREFUSED"] := by
  refine ⟨by decide, by decide, rfl⟩

/-- C1 (amended): for every N ≥ 1 concurrent `getStatus` calls serialized
on the `OUTLET_STATUS` lock while the cache is cold (absent or expired
entry), if the single fetch succeeds then exactly one transport fetch
occurs and all N calls receive the identical snapshot, the remaining
callers reading the just-stored entry verbatim inside the TTL window;
when the fetch fails the error is surfaced but not cached, so each
subsequent serialized caller performs its own fetch. -/
theorem C1_single_flight_success (oracle : Nat → Except String WattBoxInfoResponseBody)
    (body : WattBoxInfoResponseBody) (ttlMs now : Int) (n : Nat)
    (st : StatusCacheState) (hn : 1 ≤ n) (httl : 0 < ttlMs)
    (hcold : ∀ s expiry, st.cache = some (s, expiry) → expiry ≤ now)
    (horacle : oracle st.fetches = .ok body) :
    runGetStatus oracle ttlMs now n st =
      (List.replicate n (.ok (decodeStatus body)),
        ⟨some (decodeStatus body, now + ttlMs), st.fetches + 1⟩) := by
  obtain ⟨m, rfl⟩ : ∃ m, n = m + 1 := ⟨n - 1, by omega⟩
  have hstep : getStatusStep oracle ttlMs now st =
      (.ok (decodeStatus body),
        ⟨some (decodeStatus body, now + ttlMs), st.fetches + 1⟩) := by
    rcases hc : st.cache with _ | ⟨s, expiry⟩
    · unfold getStatusStep
      rw [hc, horacle]
    · have hexp := hcold s expiry hc
      unfold getStatusStep
      rw [hc]
      rw [show (match (some (s, expiry) : Option (WattBoxStatus × Int)) with
        | some (s, expiry) =>
          if now < expiry then ((.ok s : Except String WattBoxStatus), st)
          else
            match oracle st.fetches with
            | .ok body =>
              (.ok (decodeStatus body),
                (⟨some (decodeStatus body, now + ttlMs), st.fetches + 1⟩ : StatusCacheState))
            | .error e => (.error e, ⟨none, st.fetches + 1⟩)
        | none =>
          match oracle st.fetches with
          | .ok body =>
            (.ok (decodeStatus body),
              ⟨some (decodeStatus body, now + ttlMs), st.fetches + 1⟩)
          | .error e => (.error e, ⟨none, st.fetches + 1⟩)) =
        if now < expiry then (.ok s, st)
        else
          match oracle st.fetches with
          | .ok body =>
            (.ok (decodeStatus body),
              ⟨some (decodeStatus body, now + ttlMs), st.fetches + 1⟩)
          | .error e => (.error e, ⟨none, st.fetches + 1⟩) from rfl]
      rw [if_neg (by omega : ¬ now < expiry), horacle]
  rw [runGetStatus]
  rw [hstep]
  simp only []
  rw [runGetStatus_hit oracle ttlMs now _ _ _ m (by omega : now < now + ttlMs)]
  rfl

/-- C1 witness: three serialized cold-cache calls over a transport whose
first fetch succeeds with the sample body: one fetch, three identical
snapshots. -/
theorem C1_single_flight_success_witness :
    runGetStatus (fun _ => .ok sampleBody) 15000 0 3 ⟨none, 0⟩ =
      (List.replicate 3 (.ok (decodeStatus sampleBody)),
        ⟨some (decodeStatus sampleBody, 0 + 15000), 0 + 1⟩) :=
  C1_single_flight_success (fun _ => .ok sampleBody) sampleBody 15000 0 3 ⟨none, 0⟩
    (by decide) (by decide) (fun s expiry h => by simp at h) rfl

/-! ### Claim C2: commandOutlet invalidation and ordering -/

/-- C2: `commandOutlet` deletes the cached status entry exactly when the
device request succeeds and leaves the cache in its pre-command state when
the request fails; it runs under the same lock key as the status refresh;
and a `getStatus` step executed after a successful command always performs
a fresh transport fetch — its result is the newly fetched snapshot (or the
fresh error), never a snapshot cached strictly before the command. -/
theorem C2_command_invalidation (st : StatusCacheState)
    (oracle : Nat → Except String WattBoxInfoResponseBody)
    (ttlMs now : Int) (body : WattBoxInfoResponseBody) (e : String) :
    (commandOutletStep (.ok ()) st).2.cache = none ∧
    commandOutletStep (.error e) st = (.error e, st) ∧
    commandOutletLockKey = getStatusLockKey ∧
    (getStatusStep oracle ttlMs now (commandOutletStep (.ok ()) st).2).2.fetches =
      st.fetches + 1 ∧
    (oracle st.fetches = .ok body →
      getStatusStep oracle ttlMs now (commandOutletStep (.ok ()) st).2 =
        (.ok (decodeStatus body),
          ⟨some (decodeStatus body, now + ttlMs), st.fetches + 1⟩)) := by
  refine ⟨rfl, rfl, rfl, ?_, ?_⟩
  · show (getStatusStep oracle ttlMs now ⟨none, st.fetches⟩).2.fetches = st.fetches + 1
    unfold getStatusStep
    cases oracle st.fetches <;> rfl
  · intro horacle
    show getStatusStep oracle ttlMs now ⟨none, st.fetches⟩ = _
    unfold getStatusStep
    rw [horacle]

/-- C2 witness: a successful command against a warm cache (entry would
still be fresh at the read instant), followed by a `getStatus` step: the
read refetches and returns the post-command snapshot. -/
theorem C2_command_invalidation_witness :
    (commandOutletStep (.ok ()) ⟨some (decodeStatus sampleBody, 400), 5⟩).2.cache = none ∧
    getStatusStep (fun _ => .ok sampleBody) 15000 100
        (commandOutletStep (.ok ()) ⟨some (decodeStatus sampleBody, 400), 5⟩).2 =
      (.ok (decodeStatus sampleBody),
        ⟨some (decodeStatus sampleBody, 100 + 15000), 5 + 1⟩) :=
  ⟨(C2_command_invalidation ⟨some (decodeStatus sampleBody, 400), 5⟩
      (fun _ => .ok sampleBody) 15000 100 sampleBody "e").1,
    (C2_command_invalidation ⟨some (decodeStatus sampleBody, 400), 5⟩
      (fun _ => .ok sampleBody) 15000 100 sampleBody "e").2.2.2.2 rfl⟩
